import Mathlib

/-!
Verification development for the Netlify function `deepseek-polish.js`
(repository `rrz-voice-report`).

The handler is shallowly embedded: JavaScript runtime values reachable in
the handler are modelled by `JVal`; JS numbers are modelled as exact
decimal mantissa/exponent pairs (the handler performs no arithmetic, so
float rounding is never observable for the inputs treated here); fallible
JS expressions (property
access on `null`/`undefined`, `JSON.parse`) return `Except String _` whose
error string models `String(e)`; the surrounding `try/catch` is the
top-level `match` in `handler`.  The upstream `fetch` is modelled as an
oracle `Nat → Except String UpstreamResp` (call number ↦ outcome), and the
handler returns the list of upstream calls it made alongside its response,
so that "exactly one call, no retry" is a provable statement.
-/

/-- JavaScript values reachable inside the handler (JSON values plus
`undefined`).  A number is the exact decimal value `m * 10 ^ e`, the form
a JSON numeral denotes; the handler does no arithmetic, so float rounding
is never observable for the inputs treated here. -/
inductive JVal where
  | null
  | undefined
  | bool (b : Bool)
  | num (m : Int) (e : Int)
  | str (s : String)
  | arr (elems : List JVal)
  | obj (fields : List (String × JVal))
deriving Repr

/-- JS truthiness: `false`, `0`, `""`, `null`, `undefined` are falsy
(`NaN` cannot arise here). -/
def jsTruthy : JVal → Bool
  | .null => false
  | .undefined => false
  | .bool b => b
  | .num m _ => if m = 0 then false else true
  | .str s => if s = "" then false else true
  | .arr _ => true
  | .obj _ => true

/-- JS `a || b`. -/
def jsOr (a b : JVal) : JVal := if jsTruthy a then a else b

/-- Decimal digit / lowercase hex digit as a string. -/
def hexDigitStr (n : Nat) : String :=
  if n < 10 then toString n else String.singleton (Char.ofNat (87 + n))

/-- Drop trailing `'0'` characters. -/
def stripTrailingZeros (l : List Char) : List Char :=
  (l.reverse.dropWhile (fun c => c = '0')).reverse

/-- Render the JS number `m * 10 ^ e`: the exact shortest decimal form,
as JS renders every numeral that round-trips through a float (magnitudes
beyond the float range or 10^21, where JS switches to exponential
notation, cannot reach a rendering in the scenarios treated here). -/
def jsNumToString (m e : Int) : String :=
  if m = 0 then "0"
  else
    let sign := if m < 0 then "-" else ""
    let digits := (toString m.natAbs).data
    if e ≥ 0 then
      sign ++ String.mk (digits ++ List.replicate e.toNat '0')
    else
      let k := (-e).toNat
      let digits := if digits.length ≤ k then
          List.replicate (k + 1 - digits.length) '0' ++ digits
        else digits
      let ip := digits.take (digits.length - k)
      let fp := stripTrailingZeros (digits.drop (digits.length - k))
      if fp.isEmpty then sign ++ String.mk ip
      else sign ++ String.mk ip ++ "." ++ String.mk fp

mutual
/-- JS string conversion `String(v)` / `v.toString()` for the values it is
applied to in the handler (never `null`/`undefined` there, but `String()`
semantics are given for completeness).  Arrays join their elements with
`","`, rendering `null`/`undefined` elements as `""`; plain objects render
as `"[object Object]"`. -/
def jsToString : JVal → String
  | .null => "null"
  | .undefined => "undefined"
  | .bool b => if b then "true" else "false"
  | .num m e => jsNumToString m e
  | .str s => s
  | .arr es => String.intercalate "," (jsToStringElems es)
  | .obj _ => "[object Object]"

/-- Array elements as rendered by `Array.prototype.join`. -/
def jsToStringElems : List JVal → List String
  | [] => []
  | .null :: rest => "" :: jsToStringElems rest
  | .undefined :: rest => "" :: jsToStringElems rest
  | v :: rest => jsToString v :: jsToStringElems rest
end

/-- Whitespace stripped by JS `String.prototype.trim` (the ASCII portion;
exotic Unicode space characters cannot reach the handler's trims in the
scenarios treated here and are omitted). -/
def jsWs (c : Char) : Bool :=
  c = ' ' || c = '\t' || c = '\n' || c = '\r' || c = '\x0b' || c = '\x0c'

/-- JS `s.trim()` on the underlying character list. -/
def jsTrimL (l : List Char) : List Char :=
  (l.dropWhile jsWs).rdropWhile jsWs

/-- JS `s.trim()`. -/
def jsTrim (s : String) : String := String.mk (jsTrimL s.data)

/-- Object property lookup; with duplicate keys the last occurrence wins,
as for objects built by `JSON.parse`. -/
def jsObjGet (fields : List (String × JVal)) (k : String) : JVal :=
  match fields.reverse.lookup k with
  | some v => v
  | none => .undefined

/-- JS property access `v.k`: throws a `TypeError` on `null`/`undefined`,
returns `undefined` on primitives (no prototype property is named
`findings`, `FINDINGS`, `impression`, `IMPRESSION`, `text`, `patient`,
`template`, `name`, `id` or `date`, the only keys the handler reads). -/
def jsGetProp : JVal → String → Except String JVal
  | .null, k =>
      .error ("TypeError: Cannot read properties of null (reading \x27" ++ k ++ "\x27)")
  | .undefined, k =>
      .error ("TypeError: Cannot read properties of undefined (reading \x27" ++ k ++ "\x27)")
  | .obj fields, k => .ok (jsObjGet fields k)
  | _, _ => .ok .undefined

/-- JS optional chaining step `v?.k`. -/
def jsOptProp (v : JVal) (k : String) : JVal :=
  match v with
  | .null => .undefined
  | .undefined => .undefined
  | .obj fields => jsObjGet fields k
  | _ => .undefined

/-- JS optional chaining step `v?.[0]`. -/
def jsOptIndex0 (v : JVal) : JVal :=
  match v with
  | .null => .undefined
  | .undefined => .undefined
  | .arr es => es.headD .undefined
  | .obj fields => jsObjGet fields "0"
  | .str s =>
    match s.data with
    | [] => .undefined
    | c :: _ => .str (String.singleton c)
  | _ => .undefined

/-- JSON whitespace accepted by `JSON.parse`. -/
def jsonWsChar (c : Char) : Bool :=
  c = ' ' || c = '\t' || c = '\n' || c = '\r'

/-- Skip JSON whitespace. -/
def skipJsonWs (cs : List Char) : List Char := cs.dropWhile jsonWsChar

/-- Hex digit value, if any. -/
def hexVal (c : Char) : Option Nat :=
  if c.isDigit then some (c.toNat - 48)
  else if 'a' ≤ c ∧ c ≤ 'f' then some (c.toNat - 87)
  else if 'A' ≤ c ∧ c ≤ 'F' then some (c.toNat - 55)
  else none

/-- Body of a JSON string literal, after the opening quote.  Raw control
characters are rejected and the standard escapes are decoded, as in
`JSON.parse` (lone surrogates from `\uXXXX` are not recombined). -/
def parseJsonStr (fuel : Nat) (cs : List Char) (acc : List Char) :
    Except String (String × List Char) :=
  match fuel with
  | 0 => .error "SyntaxError: Unterminated string in JSON"
  | fuel + 1 =>
    match cs with
    | [] => .error "SyntaxError: Unterminated string in JSON"
    | c :: rest =>
      if c = '"' then .ok (String.mk acc.reverse, rest)
      else if c = '\\' then
        match rest with
        | [] => .error "SyntaxError: Unterminated string in JSON"
        | e :: rest2 =>
          if e = '"' then parseJsonStr fuel rest2 ('"' :: acc)
          else if e = '\\' then parseJsonStr fuel rest2 ('\\' :: acc)
          else if e = '/' then parseJsonStr fuel rest2 ('/' :: acc)
          else if e = 'b' then parseJsonStr fuel rest2 ('\x08' :: acc)
          else if e = 'f' then parseJsonStr fuel rest2 ('\x0c' :: acc)
          else if e = 'n' then parseJsonStr fuel rest2 ('\n' :: acc)
          else if e = 'r' then parseJsonStr fuel rest2 ('\x0d' :: acc)
          else if e = 't' then parseJsonStr fuel rest2 ('\t' :: acc)
          else if e = 'u' then
            match rest2 with
            | h1 :: h2 :: h3 :: h4 :: rest3 =>
              match hexVal h1, hexVal h2, hexVal h3, hexVal h4 with
              | some a, some b, some c3, some d =>
                parseJsonStr fuel rest3
                  (Char.ofNat (4096 * a + 256 * b + 16 * c3 + d) :: acc)
              | _, _, _, _ => .error "SyntaxError: Bad Unicode escape in JSON"
            | _ => .error "SyntaxError: Bad Unicode escape in JSON"
          else .error "SyntaxError: Bad escaped character in JSON"
      else if c.toNat < 32 then .error "SyntaxError: Bad control character in JSON"
      else parseJsonStr fuel rest (c :: acc)

/-- Digits of a numeral as a natural number. -/
def digitsToNat (ds : List Char) : Nat :=
  ds.foldl (fun n c => 10 * n + (c.toNat - 48)) 0

/-- JSON number literal, per the strict `JSON.parse` grammar
(no leading `+`, no leading zeros, no bare `.`). -/
def parseJsonNum (cs : List Char) : Except String (JVal × List Char) :=
  let neg : Bool := cs.head? == some '-'
  let cs1 := if neg then cs.drop 1 else cs
  let (ids, cs2) := cs1.span Char.isDigit
  if ids.isEmpty then .error "SyntaxError: Unexpected token in JSON"
  else if ids.length > 1 ∧ ids.headD '0' = '0' then
    .error "SyntaxError: Unexpected number in JSON"
  else
    let (fds, cs3) := match cs2 with
      | '.' :: r => r.span Char.isDigit
      | _ => ([], cs2)
    if (match cs2 with | '.' :: _ => fds.isEmpty | _ => false) then
      .error "SyntaxError: Unexpected token in JSON"
    else
      let (expOk, eneg, eds, cs4) := match cs3 with
        | 'e' :: '+' :: r => let (d, r2) := r.span Char.isDigit; (!d.isEmpty, false, d, r2)
        | 'e' :: '-' :: r => let (d, r2) := r.span Char.isDigit; (!d.isEmpty, true, d, r2)
        | 'e' :: r => let (d, r2) := r.span Char.isDigit; (!d.isEmpty, false, d, r2)
        | 'E' :: '+' :: r => let (d, r2) := r.span Char.isDigit; (!d.isEmpty, false, d, r2)
        | 'E' :: '-' :: r => let (d, r2) := r.span Char.isDigit; (!d.isEmpty, true, d, r2)
        | 'E' :: r => let (d, r2) := r.span Char.isDigit; (!d.isEmpty, false, d, r2)
        | _ => (true, false, [], cs3)
      if !expOk then .error "SyntaxError: Unexpected token in JSON"
      else
        let mantissa : Nat := digitsToNat (ids ++ fds)
        let m : Int := if neg then -(mantissa : Int) else (mantissa : Int)
        let e : Int := (if eneg then -(digitsToNat eds : Int) else (digitsToNat eds : Int)) -
          (fds.length : Int)
        .ok (.num m e, cs4)

mutual
/-- One JSON value, per the `JSON.parse` grammar. -/
def parseJsonVal (fuel : Nat) (cs : List Char) : Except String (JVal × List Char) :=
  match fuel with
  | 0 => .error "SyntaxError: Unexpected end of JSON input"
  | fuel + 1 =>
    let cs := skipJsonWs cs
    if cs.take 4 = "null".data then .ok (.null, cs.drop 4)
    else if cs.take 4 = "true".data then .ok (.bool true, cs.drop 4)
    else if cs.take 5 = "false".data then .ok (.bool false, cs.drop 5)
    else
      match cs with
      | [] => .error "SyntaxError: Unexpected end of JSON input"
      | '"' :: rest =>
        match parseJsonStr (rest.length + 1) rest [] with
        | .ok (s, rest2) => .ok (.str s, rest2)
        | .error e => .error e
      | '[' :: rest =>
        (match skipJsonWs rest with
         | ']' :: rest2 => .ok (.arr [], rest2)
         | rest2 => parseJsonArr fuel rest2 [])
      | '\x7b' :: rest =>
        (match skipJsonWs rest with
         | '\x7d' :: rest2 => .ok (.obj [], rest2)
         | rest2 => parseJsonObj fuel rest2 [])
      | _ => parseJsonNum cs

/-- Array elements, positioned at the start of an element. -/
def parseJsonArr (fuel : Nat) (cs : List Char) (acc : List JVal) :
    Except String (JVal × List Char) :=
  match fuel with
  | 0 => .error "SyntaxError: Unexpected end of JSON input"
  | fuel + 1 =>
    match parseJsonVal fuel cs with
    | .error e => .error e
    | .ok (v, rest) =>
      match skipJsonWs rest with
      | ',' :: rest2 => parseJsonArr fuel rest2 (v :: acc)
      | ']' :: rest2 => .ok (.arr (v :: acc).reverse, rest2)
      | _ => .error "SyntaxError: Expected comma or closing bracket in JSON"

/-- Object members, positioned at the start of a key. -/
def parseJsonObj (fuel : Nat) (cs : List Char) (acc : List (String × JVal)) :
    Except String (JVal × List Char) :=
  match fuel with
  | 0 => .error "SyntaxError: Unexpected end of JSON input"
  | fuel + 1 =>
    match cs with
    | '"' :: rest =>
      match parseJsonStr (rest.length + 1) rest [] with
      | .error e => .error e
      | .ok (k, rest2) =>
        match skipJsonWs rest2 with
        | ':' :: rest3 =>
          (match parseJsonVal fuel rest3 with
           | .error e => .error e
           | .ok (v, rest4) =>
             match skipJsonWs rest4 with
             | ',' :: rest5 =>
               (match skipJsonWs rest5 with
                | rest6 => parseJsonObj fuel rest6 ((k, v) :: acc))
             | '\x7d' :: rest5 => .ok (.obj ((k, v) :: acc).reverse, rest5)
             | _ => .error "SyntaxError: Expected comma or closing brace in JSON")
        | _ => .error "SyntaxError: Expected colon in JSON"
    | _ => .error "SyntaxError: Expected property name in JSON"
end

/-- `JSON.parse` on a string: one value, then only whitespace. -/
def jsonParse (s : String) : Except String JVal :=
  match parseJsonVal (s.length + 1) s.data with
  | .error e => .error e
  | .ok (v, rest) =>
    if (skipJsonWs rest).isEmpty then .ok v
    else .error "SyntaxError: Unexpected non-whitespace character after JSON data"

/-- One character as escaped by `JSON.stringify` inside a string literal. -/
def jsonEscapeChar (c : Char) : String :=
  if c = '"' then "\\\""
  else if c = '\\' then "\\\\"
  else if c = '\x08' then "\\b"
  else if c = '\t' then "\\t"
  else if c = '\n' then "\\n"
  else if c = '\x0c' then "\\f"
  else if c = '\x0d' then "\\r"
  else if c.toNat < 32 then "\\u00" ++ hexDigitStr (c.toNat / 16) ++ hexDigitStr (c.toNat % 16)
  else String.singleton c

/-- `JSON.stringify` of a string. -/
def jsonQuote (s : String) : String :=
  "\"" ++ String.join (s.data.map jsonEscapeChar) ++ "\""

/-- `JSON.stringify` of a flat object whose values are strings — the only
shape the handler ever serializes (`out` and the error bodies). -/
def stringifyStrObj (fields : List (String × String)) : String :=
  "\x7b" ++ String.intercalate "," (fields.map (fun kv => jsonQuote kv.1 ++ ":" ++ jsonQuote kv.2)) ++ "\x7d"

/-- The fields of the Netlify event the handler reads; `body` is the raw
request body (`none` models a `null` body). -/
structure Event where
  httpMethod : String
  body : Option String
deriving Repr, DecidableEq

/-- The process environment variables the handler reads (`none` models an
unset variable). -/
structure Env where
  deepseekApiKey : Option String
  deepseekBaseUrl : Option String
  deepseekModel : Option String
deriving Repr, DecidableEq

/-- The HTTP response object the handler returns. -/
structure Response where
  statusCode : Nat
  headers : List (String × String)
  body : String
deriving Repr, DecidableEq

/-- The parts of an upstream (`fetch`) HTTP response the handler consumes:
`resp.ok`, `await resp.text()` and `await resp.json()` (either `await` may
reject, modelled by `.error`). -/
structure UpstreamResp where
  ok : Bool
  textBody : Except String String
  jsonBody : Except String JVal
deriving Repr

/-- The data determining one upstream `fetch` call made by the handler
(the request body is `JSON.stringify` of `model`, the two `messages` built
from `system`/`user`, and `temperature: 0.2`). -/
structure FetchCall where
  url : String
  authHeader : String
  model : String
  system : String
  user : String
deriving Repr, DecidableEq

/-- `corsHeaders` from the source. -/
def corsHeaders : List (String × String) :=
  [("Access-Control-Allow-Origin", "*"),
   ("Access-Control-Allow-Headers", "Content-Type, Authorization"),
   ("Access-Control-Allow-Methods", "POST, OPTIONS")]

/-- `{ ...corsHeaders, "Content-Type": "application/json" }` with a status
and a JSON body — the shape of every non-`OPTIONS` response. -/
def mkJsonResp (status : Nat) (body : String) : Response :=
  { statusCode := status
    headers := corsHeaders ++ [("Content-Type", "application/json")]
    body := body }

/-- The fixed system instruction. -/
def systemPrompt : String :=
  "You are a radiology report editor. Return ONLY valid JSON with keys: findings, impression. Keep the same language as the input."

/-- The `user` message: the source's array literal joined with newlines,
with the template/patient substitutions already performed on its string
arguments. -/
def userPromptLines (template pname pid pdate text : String) : String :=
  String.intercalate "\n"
    ["Rewrite and polish this dictated dental radiology report text.",
     "- Keep the medical meaning.",
     "- Fix grammar, spelling, and structure.",
     "- If the text is short/fragmented, complete it into a professional report.",
     "- Output JSON ONLY in this schema:",
     "\x7b \"findings\": \"...\", \"impression\": \"...\" \x7d",
     "",
     "Template: " ++ (if template = "" then "N/A" else template),
     "Patient: " ++ pname ++ " | ID: " ++ pid ++ " | Date: " ++ pdate,
     "",
     "Raw text:",
     text]

/-- `event.body ? JSON.parse(event.body) : {}`. -/
def parseEventBody (event : Event) : Except String JVal :=
  match event.body with
  | some s => if s = "" then .ok (.obj []) else jsonParse s
  | none => .ok (.obj [])

/-- `process.env.X || "default"`: an unset or empty variable falls back. -/
def envDefault (v : Option String) (d : String) : String :=
  match v with
  | some s => if s = "" then d else s
  | none => d

/-- Outcome of the handler body up to (but not including) the `fetch`:
either an early response (400 missing text / 500 missing key) or the
validated text together with the upstream call about to be made. -/
inductive Pre where
  | early (r : Response)
  | proceed (text : String) (call : FetchCall)
deriving Repr, DecidableEq

/-- 400 `{error: "Missing text"}`. -/
def missingTextResp : Response :=
  mkJsonResp 400 (stringifyStrObj [("error", "Missing text")])

/-- 500 `{error: "Server missing DEEPSEEK_API_KEY"}`. -/
def missingKeyResp : Response :=
  mkJsonResp 500 (stringifyStrObj [("error", "Server missing DEEPSEEK_API_KEY")])

/-- The handler body from `const body = ...` up to the `fetch` call:
body parse, `text`/`patient`/`template` extraction, the `!text` check, the
environment reads, the `!apiKey` check, and prompt assembly.  An `.error`
is an exception reaching the `catch` block. -/
def deepseekPre (event : Event) (env : Env) : Except String Pre :=
  match parseEventBody event with
  | .error e => .error e
  | .ok body =>
  match jsGetProp body "text" with
  | .error e => .error e
  | .ok textV =>
  let text := jsTrim (jsToString (jsOr textV (.str "")))
  match jsGetProp body "patient" with
  | .error e => .error e
  | .ok patientV =>
  let patient := jsOr patientV (.obj [])
  match jsGetProp body "template" with
  | .error e => .error e
  | .ok templateV =>
  let template := jsToString (jsOr templateV (.str ""))
  if text = "" then .ok (.early missingTextResp)
  else
  let apiKey := env.deepseekApiKey.getD ""
  let baseUrl := envDefault env.deepseekBaseUrl "https://api.deepseek.com"
  let model := envDefault env.deepseekModel "deepseek-chat"
  if apiKey = "" then .ok (.early missingKeyResp)
  else
  match jsGetProp patient "name" with
  | .error e => .error e
  | .ok nameV =>
  match jsGetProp patient "id" with
  | .error e => .error e
  | .ok idV =>
  match jsGetProp patient "date" with
  | .error e => .error e
  | .ok dateV =>
  .ok (.proceed text
    { url := baseUrl ++ "/v1/chat/completions"
      authHeader := "Bearer " ++ apiKey
      model := model
      system := systemPrompt
      user := userPromptLines template
        (jsToString (jsOr nameV (.str ""))) (jsToString (jsOr idV (.str "")))
        (jsToString (jsOr dateV (.str ""))) text })

/-- `data?.choices?.[0]?.message?.content || ""`. -/
def contentValue (data : JVal) : JVal :=
  jsOr (jsOptProp (jsOptProp (jsOptIndex0 (jsOptProp data "choices")) "message") "content")
    (.str "")

/-- `try { parsed = JSON.parse(content) } catch { parsed = { findings:
content || text, impression: "" } }` (`JSON.parse` string-coerces its
argument). -/
def parsedContent (data : JVal) (text : String) : JVal :=
  match jsonParse (jsToString (contentValue data)) with
  | .ok v => v
  | .error _ =>
    .obj [("findings", jsOr (contentValue data) (.str text)), ("impression", .str "")]

/-- The `const out = { findings: ..., impression: ... }` literal:
`(parsed.findings || parsed.FINDINGS || "").toString().trim()` and the
same for `impression`/`IMPRESSION`.  Property access may throw. -/
def normalizeRaw (parsed : JVal) : Except String (String × String) :=
  match jsGetProp parsed "findings" with
  | .error e => .error e
  | .ok fv1 =>
  match (if jsTruthy fv1 then .ok fv1 else jsGetProp parsed "FINDINGS" :
      Except String JVal) with
  | .error e => .error e
  | .ok fv =>
  let findings := jsTrim (jsToString (jsOr fv (.str "")))
  match jsGetProp parsed "impression" with
  | .error e => .error e
  | .ok iv1 =>
  match (if jsTruthy iv1 then .ok iv1 else jsGetProp parsed "IMPRESSION" :
      Except String JVal) with
  | .error e => .error e
  | .ok iv =>
  .ok (findings, jsTrim (jsToString (jsOr iv (.str ""))))

/-- `out` after `if (!out.findings) out.findings = text;`. -/
def normalizeOut (parsed : JVal) (text : String) : Except String (String × String) :=
  match normalizeRaw parsed with
  | .error e => .error e
  | .ok fi => .ok (if fi.1 = "" then text else fi.1, fi.2)

/-- The success path after `resp.ok`: content extraction, repair, output
normalization and the 200 response. -/
def successStage (data : JVal) (text : String) : Except String Response :=
  match normalizeOut (parsedContent data text) text with
  | .error e => .error e
  | .ok fi =>
    .ok (mkJsonResp 200 (stringifyStrObj [("findings", fi.1), ("impression", fi.2)]))

/-- The whole `try` block of the POST path.  Returns the outcome (a
response, or the exception value reaching `catch`) together with the list
of upstream calls made. -/
def handlerPost (event : Event) (env : Env)
    (fetches : Nat → Except String UpstreamResp) :
    Except String Response × List FetchCall :=
  match deepseekPre event env with
  | .error e => (.error e, [])
  | .ok (.early r) => (.ok r, [])
  | .ok (.proceed text call) =>
    match fetches 0 with
    | .error e => (.error e, [call])
    | .ok resp =>
      if resp.ok then
        match resp.jsonBody with
        | .error e => (.error e, [call])
        | .ok data =>
          (match successStage data text with
           | .error e => (.error e, [call])
           | .ok r => (.ok r, [call]))
      else
        match resp.textBody with
        | .error e => (.error e, [call])
        | .ok t =>
          (.ok (mkJsonResp 502 (stringifyStrObj [("error", "DeepSeek error"), ("details", t)])),
           [call])

/-- 500 `{error: "Server exception", details: String(e)}` — the `catch`
block. -/
def serverExceptionResp (e : String) : Response :=
  mkJsonResp 500 (stringifyStrObj [("error", "Server exception"), ("details", e)])

/-- `exports.handler`: the OPTIONS short-circuit, the 405 gate, and the
`try`/`catch` around the POST body.  Returns the response together with
the list of upstream calls made. -/
def handler (event : Event) (env : Env)
    (fetches : Nat → Except String UpstreamResp) : Response × List FetchCall :=
  if event.httpMethod = "OPTIONS" then
    ({ statusCode := 204, headers := corsHeaders, body := "" }, [])
  else if event.httpMethod ≠ "POST" then
    (mkJsonResp 405 (stringifyStrObj [("error", "Method Not Allowed")]), [])
  else
    match handlerPost event env fetches with
    | (.ok r, calls) => (r, calls)
    | (.error e, calls) => (serverExceptionResp e, calls)

/-- A response carries the three CORS headers of the source. -/
def hasCorsHeaders (r : Response) : Bool :=
  (r.headers.lookup "Access-Control-Allow-Origin" == some "*") &&
  (r.headers.lookup "Access-Control-Allow-Headers" == some "Content-Type, Authorization") &&
  (r.headers.lookup "Access-Control-Allow-Methods" == some "POST, OPTIONS")

/-- A well-formed HTTP response of this handler: the CORS headers are
present and the status is one of the six the source can emit. -/
def wellFormedResponse (r : Response) : Bool :=
  hasCorsHeaders r &&
  (r.statusCode == 200 || r.statusCode == 204 || r.statusCode == 400 ||
   r.statusCode == 405 || r.statusCode == 500 || r.statusCode == 502)

/-- Whether a `JSON.parse` outcome is a parse failure. -/
def isParseError (r : Except String JVal) : Bool :=
  match r with
  | .error _ => true
  | .ok _ => false

/-- The string a `${field || ""}`-style substitution produces: the string
coercion of the value when it is truthy, the empty string otherwise (equal
to `jsToString (jsOr v (.str ""))`). -/
def jsCoerceOpt (v : JVal) : String :=
  if jsTruthy v then jsToString v else ""

/-- Environment with the API key set. -/
def envOK : Env := ⟨some "k", none, none⟩

/-- Environment with `DEEPSEEK_API_KEY` unset. -/
def envNoKey : Env := ⟨none, none, none⟩

/-- Upstream oracle: the network call itself rejects. -/
def fetchFail : Nat → Except String UpstreamResp :=
  fun _ => .error "TypeError: fetch failed"

/-- Upstream oracle: HTTP failure status with the given body text. -/
def fetchUp (t : String) : Nat → Except String UpstreamResp :=
  fun _ => .ok ⟨false, .ok t, .error "unused"⟩

/-- An upstream JSON document with `choices[0].message.content` set. -/
def mkChoicesData (content : JVal) : JVal :=
  .obj [("choices", .arr [.obj [("message", .obj [("content", content)])]])]

/-- Upstream oracle: HTTP success whose parsed body carries the given
`content`. -/
def fetchContent (content : JVal) : Nat → Except String UpstreamResp :=
  fun _ => .ok ⟨true, .ok "", .ok (mkChoicesData content)⟩

/-- POST event with body `{"text":"hi"}`. -/
def postTextHi : Event := ⟨"POST", some "\x7b\"text\":\"hi\"\x7d"⟩

/-- POST event with body `{"text":"   "}` (text empty after trim). -/
def postTextWs : Event := ⟨"POST", some "\x7b\"text\":\"   \"\x7d"⟩

/-- POST event whose body is not valid JSON. -/
def postBadJson : Event := ⟨"POST", some "not json"⟩

/-- POST event with a truthy non-string `template`. -/
def c7Event : Event := ⟨"POST", some "\x7b\"text\":\"hi\",\"template\":123\x7d"⟩

/-- POST event with truthy non-string `template` and `patient.name`. -/
def c7wEvent : Event :=
  ⟨"POST", some "\x7b\"text\":\"hi\",\"template\":123,\"patient\":\x7b\"name\":5\x7d\x7d"⟩

/-- The upstream call `deepseekPre` produces for an event/environment that
reaches the fetch (dummy call otherwise). -/
def preCallOf (event : Event) (env : Env) : FetchCall :=
  match deepseekPre event env with
  | .ok (.proceed _ c) => c
  | _ => ⟨"", "", "", "", ""⟩

theorem dropWhile_head_false {α} {p : α → Bool} {a : α} {x : List α}
    (h : List.dropWhile p (a :: x) = a :: x) : p a = false := by
  cases hpa : p a with
  | false => rfl
  | true =>
    rw [List.dropWhile_cons, if_pos hpa] at h
    have hlen := congrArg List.length h
    have hle := (List.dropWhile_sublist (l := x) p).length_le
    simp at hlen
    omega

theorem dropWhile_of_append_self {α} (p : α → Bool) (d t m : List α)
    (hdt : d ++ t = m) (hm : List.dropWhile p m = m) : List.dropWhile p d = d := by
  cases d with
  | nil => simp
  | cons a d' =>
    have ha : p a = false := by
      apply dropWhile_head_false (x := d' ++ t)
      rw [← hdt] at hm
      simpa using hm
    rw [List.dropWhile_cons, if_neg (by simp [ha])]

theorem jsTrimL_idem (l : List Char) : jsTrimL (jsTrimL l) = jsTrimL l := by
  unfold jsTrimL
  have hmm : List.dropWhile jsWs (List.dropWhile jsWs l) = List.dropWhile jsWs l :=
    List.dropWhile_idempotent jsWs l
  obtain ⟨t, ht⟩ := ( List.rdropWhile_prefix jsWs (List.dropWhile jsWs l))
  rw [dropWhile_of_append_self jsWs _ t _ ht hmm]
  exact List.rdropWhile_idempotent jsWs _

theorem jsTrim_idem (s : String) : jsTrim (jsTrim s) = jsTrim s := by
  exact congrArg String.mk (jsTrimL_idem s.data)

theorem pre_proceed (event : Event) (env : Env) (text : String) (call : FetchCall)
    (h : deepseekPre event env = .ok (.proceed text call)) :
    text ≠ "" ∧ jsTrim text = text := by
  unfold deepseekPre at h
  split at h
  · simp at h
  · split at h
    · simp at h
    · split at h
      · simp at h
      · split at h
        · simp at h
        · simp only [] at h
          split at h
          · simp at h
          · split at h
            · simp at h
            · split at h
              · simp at h
              · split at h
                · simp at h
                · split at h
                  · simp at h
                  · simp only [Except.ok.injEq, Pre.proceed.injEq] at h
                    obtain ⟨h1, _⟩ := h
                    constructor
                    · rw [← h1]; assumption
                    · rw [← h1]; exact jsTrim_idem _

theorem pre_early (event : Event) (env : Env) (r : Response)
    (h : deepseekPre event env = .ok (.early r)) :
    r = missingTextResp ∨ r = missingKeyResp := by
  unfold deepseekPre at h
  split at h
  · simp at h
  · split at h
    · simp at h
    · split at h
      · simp at h
      · split at h
        · simp at h
        · simp only [] at h
          split at h
          · simp only [Except.ok.injEq, Pre.early.injEq] at h
            exact Or.inl h.symm
          · split at h
            · simp only [Except.ok.injEq, Pre.early.injEq] at h
              exact Or.inr h.symm
            · split at h
              · simp at h
              · split at h
                · simp at h
                · split at h
                  · simp at h
                  · simp at h

theorem jsGetProp_ok_any (b : JVal) (k k2 : String) (v : JVal)
    (h : jsGetProp b k = .ok v) : ∃ w, jsGetProp b k2 = .ok w := by
  cases b
  case null => simp [jsGetProp] at h
  case undefined => simp [jsGetProp] at h
  all_goals exact ⟨_, rfl⟩

theorem normalizeOut_ok_ne (parsed : JVal) (text f i : String)
    (h : normalizeOut parsed text = .ok (f, i)) (ht : text ≠ "") : f ≠ "" := by
  unfold normalizeOut at h
  split at h
  · simp at h
  · simp only [Except.ok.injEq, Prod.mk.injEq] at h
    obtain ⟨h1, _⟩ := h
    rw [← h1]
    split
    · exact ht
    · assumption

theorem successStage_ok (data : JVal) (text : String) (r : Response)
    (h : successStage data text = .ok r) :
    ∃ f i, normalizeOut (parsedContent data text) text = .ok (f, i) ∧
      r = mkJsonResp 200 (stringifyStrObj [("findings", f), ("impression", i)]) := by
  unfold successStage at h
  split at h
  · simp at h
  · rename_i fi heq
    refine ⟨fi.1, fi.2, heq, ?_⟩
    simp only [Except.ok.injEq] at h
    exact h.symm

theorem handlerPost_ok_shape (event : Event) (env : Env)
    (fetches : Nat → Except String UpstreamResp) (r : Response) (calls : List FetchCall)
    (h : handlerPost event env fetches = (.ok r, calls)) :
    r = missingTextResp ∨ r = missingKeyResp ∨
    (∃ t, r = mkJsonResp 502 (stringifyStrObj [("error", "DeepSeek error"), ("details", t)])) ∨
    (∃ f i, r = mkJsonResp 200 (stringifyStrObj [("findings", f), ("impression", i)])) := by
  unfold handlerPost at h
  split at h
  · simp at h
  · rename_i r0 heq
    simp only [Prod.mk.injEq, Except.ok.injEq] at h
    rcases pre_early _ _ _ heq with h2 | h2
    · exact Or.inl (h.1 ▸ h2)
    · exact Or.inr (Or.inl (h.1 ▸ h2))
  · split at h
    · simp at h
    · split at h
      · split at h
        · simp at h
        · split at h
          · simp at h
          · rename_i r2 heq2
            simp only [Prod.mk.injEq, Except.ok.injEq] at h
            obtain ⟨f, i, _, hshape⟩ := successStage_ok _ _ _ heq2
            exact Or.inr (Or.inr (Or.inr ⟨f, i, h.1 ▸ hshape⟩))
      · split at h
        · simp at h
        · rename_i t heq3
          simp only [Prod.mk.injEq, Except.ok.injEq] at h
          exact Or.inr (Or.inr (Or.inl ⟨t, h.1.symm⟩))

theorem handlerPost_200 (event : Event) (env : Env)
    (fetches : Nat → Except String UpstreamResp) (r : Response) (calls : List FetchCall)
    (h : handlerPost event env fetches = (.ok r, calls)) (h200 : r.statusCode = 200) :
    ∃ text call data, deepseekPre event env = .ok (.proceed text call) ∧
      successStage data text = .ok r := by
  unfold handlerPost at h
  split at h
  · simp at h
  · rename_i r0 heq
    simp only [Prod.mk.injEq, Except.ok.injEq] at h
    rcases pre_early _ _ _ heq with h2 | h2 <;>
      (rw [← h.1, h2] at h200; simp [missingTextResp, missingKeyResp, mkJsonResp] at h200)
  · rename_i text call heq
    split at h
    · simp at h
    · split at h
      · split at h
        · simp at h
        · rename_i data heqd
          split at h
          · simp at h
          · rename_i r2 heq2
            simp only [Prod.mk.injEq, Except.ok.injEq] at h
            exact ⟨text, call, data, heq, h.1 ▸ heq2⟩
      · split at h
        · simp at h
        · simp only [Prod.mk.injEq, Except.ok.injEq] at h
          rw [← h.1] at h200
          simp [mkJsonResp] at h200

theorem jsTruthy_undefined : jsTruthy .undefined = false := rfl

theorem jsTruthy_str_empty : jsTruthy (.str "") = false := rfl

theorem jsTrim_empty : jsTrim "" = "" := rfl

theorem jsToString_str (s : String) : jsToString (.str s) = s := rfl

theorem jsTrim_toString_str_empty : jsTrim (jsToString (.str "")) = "" := rfl

theorem normalizeRaw_fallback (v : JVal) :
    normalizeRaw (.obj [("findings", v), ("impression", .str "")]) =
      .ok (jsTrim (jsToString (jsOr v (.str ""))), "") := by
  cases hv : jsTruthy v <;>
    simp [normalizeRaw, jsGetProp, jsObjGet, jsOr, hv, List.lookup,
      jsTruthy_undefined, jsTruthy_str_empty, jsTrim_empty, jsToString_str, jsTrim_toString_str_empty]

theorem normalizeRaw_lower (v w : JVal) (hv : jsTruthy v = true) (hw : jsTruthy w = true) :
    normalizeRaw (.obj [("findings", v), ("impression", w)]) =
      .ok (jsTrim (jsToString v), jsTrim (jsToString w)) := by
  simp [normalizeRaw, jsGetProp, jsObjGet, jsOr, hv, hw, List.lookup]

theorem normalizeRaw_upper (v w : JVal) (hv : jsTruthy v = true) (hw : jsTruthy w = true) :
    normalizeRaw (.obj [("FINDINGS", v), ("IMPRESSION", w)]) =
      .ok (jsTrim (jsToString v), jsTrim (jsToString w)) := by
  simp [normalizeRaw, jsGetProp, jsObjGet, jsOr, hv, hw, List.lookup,
    jsTruthy_undefined, jsTruthy_str_empty, jsToString_str, jsTrim_toString_str_empty]

theorem normalizeRaw_mixedcase (v w : JVal) :
    normalizeRaw (.obj [("Findings", v), ("Impression", w)]) = .ok ("", "") := by
  simp [normalizeRaw, jsGetProp, jsObjGet, jsOr, List.lookup,
    jsTruthy_undefined, jsTruthy_str_empty, jsTrim_empty, jsToString_str, jsTrim_toString_str_empty]

theorem normalizeRaw_falsy_upper (v u : JVal) (hv : jsTruthy v = false) (hu : jsTruthy u = true) :
    normalizeRaw (.obj [("findings", v), ("FINDINGS", u)]) =
      .ok (jsTrim (jsToString u), "") := by
  simp [normalizeRaw, jsGetProp, jsObjGet, jsOr, hv, hu, List.lookup,
    jsTruthy_undefined, jsTruthy_str_empty, jsTrim_empty, jsToString_str, jsTrim_toString_str_empty]

theorem normalizeOut_falsy_only (v : JVal) (text : String) (hv : jsTruthy v = false) :
    normalizeOut (.obj [("findings", v)]) text = .ok (text, "") := by
  simp [normalizeOut, normalizeRaw, jsGetProp, jsObjGet, jsOr, hv, List.lookup,
    jsTruthy_undefined, jsTruthy_str_empty, jsTrim_empty, jsToString_str, jsTrim_toString_str_empty]

theorem normalizeRaw_impression_falsy (v : JVal) (hv : jsTruthy v = false) :
    normalizeRaw (.obj [("findings", .str "F"), ("impression", v)]) = .ok ("F", "") := by
  simp [normalizeRaw, jsGetProp, jsObjGet, jsOr, hv, List.lookup,
    jsTruthy_undefined, jsTruthy_str_empty, jsTrim_empty, jsToString_str, jsTrim_toString_str_empty]
  rfl

/-- C8: every OPTIONS request yields exactly status 204 with an empty
body, no Content-Type header, and the three CORS headers (allow-origin
any, allow-headers Content-Type and Authorization, allow-methods POST and
OPTIONS) present. -/
theorem C8_options_response (event : Event) (env : Env)
    (fetches : Nat → Except String UpstreamResp)
    (h : event.httpMethod = "OPTIONS") :
    ((handler event env fetches).1.statusCode = 204) ∧
    ((handler event env fetches).1.body = "") ∧
    ((handler event env fetches).1.headers.lookup "Content-Type" = none) ∧
    ((handler event env fetches).1.headers.lookup "Access-Control-Allow-Origin" = some "*") ∧
    ((handler event env fetches).1.headers.lookup "Access-Control-Allow-Headers" =
      some "Content-Type, Authorization") ∧
    ((handler event env fetches).1.headers.lookup "Access-Control-Allow-Methods" =
      some "POST, OPTIONS") := by
  simp [handler, h, corsHeaders, List.lookup]

/-- Witness for C8 at the concrete OPTIONS event. -/
theorem C8_witness :
    ((handler ⟨"OPTIONS", none⟩ envOK fetchFail).1.statusCode = 204) ∧
    ((handler ⟨"OPTIONS", none⟩ envOK fetchFail).1.body = "") ∧
    ((handler ⟨"OPTIONS", none⟩ envOK fetchFail).1.headers.lookup "Content-Type" = none) ∧
    ((handler ⟨"OPTIONS", none⟩ envOK fetchFail).1.headers.lookup "Access-Control-Allow-Origin" = some "*") ∧
    ((handler ⟨"OPTIONS", none⟩ envOK fetchFail).1.headers.lookup "Access-Control-Allow-Headers" =
      some "Content-Type, Authorization") ∧
    ((handler ⟨"OPTIONS", none⟩ envOK fetchFail).1.headers.lookup "Access-Control-Allow-Methods" =
      some "POST, OPTIONS") :=
  C8_options_response ⟨"OPTIONS", none⟩ envOK fetchFail rfl

/-- C5: the API-key check runs only after input validation.  Part one:
every POST whose body parses and whose extracted text is empty after
trimming yields 400 Missing text for every environment, the key unset
included.  Part two: every POST with non-empty trimmed text and an unset
(or empty) DEEPSEEK_API_KEY yields 500 with the specific missing-key
body, not the generic exception body. -/
theorem C5_validation_before_key (event : Event) (env : Env)
    (fetches : Nat → Except String UpstreamResp) :
    (∀ b tv, event.httpMethod = "POST" → parseEventBody event = .ok b →
      jsGetProp b "text" = .ok tv →
      jsTrim (jsToString (jsOr tv (.str ""))) = "" →
      (handler event env fetches).1 =
        mkJsonResp 400 (stringifyStrObj [("error", "Missing text")])) ∧
    (∀ b tv, event.httpMethod = "POST" → parseEventBody event = .ok b →
      jsGetProp b "text" = .ok tv →
      jsTrim (jsToString (jsOr tv (.str ""))) ≠ "" →
      env.deepseekApiKey.getD "" = "" →
      (handler event env fetches).1 =
        mkJsonResp 500 (stringifyStrObj [("error", "Server missing DEEPSEEK_API_KEY")])) := by
  constructor
  · intro b tv hm hb htv hempty
    obtain ⟨pv, hpv⟩ := jsGetProp_ok_any b "text" "patient" tv htv
    obtain ⟨tmv, htmv⟩ := jsGetProp_ok_any b "text" "template" tv htv
    have hpre : deepseekPre event env = .ok (.early missingTextResp) := by
      unfold deepseekPre
      simp [hb, htv, hpv, htmv, hempty]
    have hpost : handlerPost event env fetches = (.ok missingTextResp, []) := by
      unfold handlerPost
      rw [hpre]
    simp [handler, hm, hpost, missingTextResp]
  · intro b tv hm hb htv hne hkey
    obtain ⟨pv, hpv⟩ := jsGetProp_ok_any b "text" "patient" tv htv
    obtain ⟨tmv, htmv⟩ := jsGetProp_ok_any b "text" "template" tv htv
    have hpre : deepseekPre event env = .ok (.early missingKeyResp) := by
      unfold deepseekPre
      simp [hb, htv, hpv, htmv, hne, hkey]
    have hpost : handlerPost event env fetches = (.ok missingKeyResp, []) := by
      unfold handlerPost
      rw [hpre]
    simp [handler, hm, hpost, missingKeyResp]

/-- Witness for C5: both parts at concrete events with the key unset. -/
theorem C5_witness :
    ((handler postTextWs envNoKey fetchFail).1 =
      mkJsonResp 400 (stringifyStrObj [("error", "Missing text")])) ∧
    ((handler postTextHi envNoKey fetchFail).1 =
      mkJsonResp 500 (stringifyStrObj [("error", "Server missing DEEPSEEK_API_KEY")])) :=
  ⟨(C5_validation_before_key postTextWs envNoKey fetchFail).1
      (JVal.obj [("text", .str "   ")]) (.str "   ") rfl rfl rfl rfl,
   (C5_validation_before_key postTextHi envNoKey fetchFail).2
      (JVal.obj [("text", .str "hi")]) (.str "hi") rfl rfl rfl (by decide) rfl⟩

/-- C6: a POST that reaches the upstream call and receives a response
whose status indicates failure (`resp.ok` false) responds 502 with error
DeepSeek error and details the upstream body text verbatim, and the call
list is exactly one element long: no retry is made. -/
theorem C6_upstream_error_502 (event : Event) (env : Env)
    (fetches : Nat → Except String UpstreamResp) (text : String) (call : FetchCall)
    (resp : UpstreamResp) (t : String)
    (hm : event.httpMethod = "POST")
    (hpre : deepseekPre event env = .ok (.proceed text call))
    (hf : fetches 0 = .ok resp)
    (hok : resp.ok = false)
    (ht : resp.textBody = .ok t) :
    handler event env fetches =
      (mkJsonResp 502 (stringifyStrObj [("error", "DeepSeek error"), ("details", t)]),
       [call]) := by
  have hpost : handlerPost event env fetches =
      (.ok (mkJsonResp 502 (stringifyStrObj [("error", "DeepSeek error"), ("details", t)])),
       [call]) := by
    unfold handlerPost
    simp [hpre, hf, hok, ht]
  simp [handler, hm, hpost]

/-- Witness for C6: upstream HTTP 500 with body rate limited yields the
502 passthrough after exactly one call. -/
theorem C6_witness :
    handler postTextHi envOK (fetchUp "rate limited") =
      (mkJsonResp 502 (stringifyStrObj [("error", "DeepSeek error"), ("details", "rate limited")]),
       [preCallOf postTextHi envOK]) :=
  C6_upstream_error_502 postTextHi envOK (fetchUp "rate limited") "hi"
    (preCallOf postTextHi envOK) ⟨false, .ok "rate limited", .error "unused"⟩ "rate limited"
    rfl rfl rfl rfl rfl

/-- C4: for every input event, environment and upstream behavior the
handler returns a well-formed HTTP response (it is a total function by
construction, so it terminates without throwing), and whenever the POST
body raises an exception anywhere (malformed request JSON, network
failure, unexpected upstream shape), the response is status 500 with body
error Server exception and details the string rendering of the
exception. -/
theorem C4_total_and_catch (event : Event) (env : Env)
    (fetches : Nat → Except String UpstreamResp) :
    wellFormedResponse (handler event env fetches).1 = true ∧
    (∀ e calls, event.httpMethod = "POST" →
      handlerPost event env fetches = (.error e, calls) →
      handler event env fetches =
        (mkJsonResp 500 (stringifyStrObj [("error", "Server exception"), ("details", e)]),
         calls)) := by
  constructor
  · by_cases hOpt : event.httpMethod = "OPTIONS"
    · have hh : handler event env fetches =
          ({ statusCode := 204, headers := corsHeaders, body := "" }, []) := by
        simp [handler, hOpt]
      rw [hh]
      rfl
    · by_cases hPost : event.httpMethod = "POST"
      · rcases hp : handlerPost event env fetches with ⟨res, calls⟩
        cases res with
        | error e =>
          have hh : handler event env fetches = (serverExceptionResp e, calls) := by
            simp [handler, hOpt, hPost, hp]
          rw [hh]
          rfl
        | ok r =>
          have hh : handler event env fetches = (r, calls) := by
            simp [handler, hOpt, hPost, hp]
          rw [hh]
          rcases handlerPost_ok_shape _ _ _ _ _ hp with h1 | h1 | ⟨t, h1⟩ | ⟨f, i, h1⟩ <;>
            rw [h1] <;> rfl
      · have hh : handler event env fetches =
            (mkJsonResp 405 (stringifyStrObj [("error", "Method Not Allowed")]), []) := by
          simp [handler, hOpt, hPost]
        rw [hh]
        rfl
  · intro e calls hm hpost
    have : handler event env fetches = (serverExceptionResp e, calls) := by
      simp [handler, hm, hpost]
    rw [this]
    rfl

/-- Witness for C4 at a POST whose body is malformed JSON. -/
theorem C4_witness :
    wellFormedResponse (handler postBadJson envOK fetchFail).1 = true ∧
    handler postBadJson envOK fetchFail =
      (mkJsonResp 500 (stringifyStrObj [("error", "Server exception"),
        ("details", "SyntaxError: Unexpected token in JSON")]), []) :=
  ⟨(C4_total_and_catch postBadJson envOK fetchFail).1,
   (C4_total_and_catch postBadJson envOK fetchFail).2
     "SyntaxError: Unexpected token in JSON" [] rfl rfl⟩

/-- C1: every POST that reaches a 200 response comes from a validated
non-empty trimmed text, and the findings field of the response body is a
non-empty string, regardless of the environment and of what the upstream
oracle returned. -/
theorem C1_findings_nonempty (event : Event) (env : Env)
    (fetches : Nat → Except String UpstreamResp)
    (hm : event.httpMethod = "POST")
    (h200 : (handler event env fetches).1.statusCode = 200) :
    ∃ text call, deepseekPre event env = .ok (.proceed text call) ∧ text ≠ "" ∧
      ∃ f i, (handler event env fetches).1.body =
        stringifyStrObj [("findings", f), ("impression", i)] ∧ f ≠ "" := by
  rcases hp : handlerPost event env fetches with ⟨res, calls⟩
  cases res with
  | error e =>
    have hh : handler event env fetches = (serverExceptionResp e, calls) := by
      simp [handler, hm, hp]
    rw [hh] at h200
    simp [serverExceptionResp, mkJsonResp] at h200
  | ok r =>
    have hh : handler event env fetches = (r, calls) := by
      simp [handler, hm, hp]
    rw [hh] at h200 ⊢
    obtain ⟨text, call, data, hpre, hss⟩ := handlerPost_200 _ _ _ _ _ hp h200
    obtain ⟨f, i, hno, hshape⟩ := successStage_ok _ _ _ hss
    have htext := pre_proceed _ _ _ _ hpre
    refine ⟨text, call, hpre, htext.1, f, i, ?_,
      normalizeOut_ok_ne _ _ _ _ hno htext.1⟩
    rw [hshape]
    rfl

/-- Witness for C1 at a concrete 200-producing request. -/
theorem C1_witness :
    (handler postTextHi envOK (fetchContent (.str "prose"))).1.statusCode = 200 ∧
    (∃ text call,
      deepseekPre postTextHi envOK = .ok (.proceed text call) ∧ text ≠ "" ∧
      ∃ f i, (handler postTextHi envOK (fetchContent (.str "prose"))).1.body =
        stringifyStrObj [("findings", f), ("impression", i)] ∧ f ≠ "") :=
  ⟨rfl, C1_findings_nonempty postTextHi envOK (fetchContent (.str "prose")) rfl rfl⟩

/-- C9: for the POST request with non-empty trimmed text "hi" whose
extracted upstream content is the five-character string "null" (valid
JSON that does not parse to an object), the handler does not return a
degraded 200 result: property access on the parsed null throws, and the
response is status 500 with error Server exception. -/
theorem C9_nonobject_content_500 :
    jsonParse "null" = .ok .null ∧
    jsTrim "hi" ≠ "" ∧
    (handler postTextHi envOK (fetchContent (.str "null"))).1.statusCode = 500 ∧
    (handler postTextHi envOK (fetchContent (.str "null"))).1.body =
      stringifyStrObj [("error", "Server exception"),
        ("details", "TypeError: Cannot read properties of null (reading \x27findings\x27)")] :=
  ⟨rfl, by decide, rfl, rfl⟩

/-- C3: output normalization accepts exactly the spellings
findings/FINDINGS and impression/IMPRESSION (lowercase tried first), and
string-coerces and trims the extracted values; a mixed-case key such as
Findings or Impression is not matched and the raw output fields are then
empty. -/
theorem C3_key_matching :
    (∀ v w, jsTruthy v = true → jsTruthy w = true →
      normalizeRaw (.obj [("findings", v), ("impression", w)]) =
        .ok (jsTrim (jsToString v), jsTrim (jsToString w))) ∧
    (∀ v w, jsTruthy v = true → jsTruthy w = true →
      normalizeRaw (.obj [("FINDINGS", v), ("IMPRESSION", w)]) =
        .ok (jsTrim (jsToString v), jsTrim (jsToString w))) ∧
    (∀ v w, normalizeRaw (.obj [("Findings", v), ("Impression", w)]) = .ok ("", "")) :=
  ⟨normalizeRaw_lower, normalizeRaw_upper, normalizeRaw_mixedcase⟩

/-- Witness for C3 at concrete objects, including non-string values
that are string-coerced. -/
theorem C3_witness :
    normalizeRaw (.obj [("findings", .str " A "), ("impression", .num 7 0)]) = .ok ("A", "7") ∧
    normalizeRaw (.obj [("FINDINGS", .num 5 0), ("IMPRESSION", .str "B ")]) = .ok ("5", "B") ∧
    normalizeRaw (.obj [("Findings", .str "x"), ("Impression", .str "y")]) = .ok ("", "") :=
  ⟨C3_key_matching.1 (.str " A ") (.num 7 0) (by decide) (by decide),
   C3_key_matching.2.1 (.num 5 0) (.str "B ") (by decide) (by decide),
   C3_key_matching.2.2 (.str "x") (.str "y")⟩

/-- C10: a falsy findings (or impression) value — false, 0, null or the
empty string — is treated as if the key were absent: the handler falls
through to the uppercase variant, then to the empty string, and for
findings finally substitutes the original trimmed input text. -/
theorem C10_falsy_fallthrough :
    (jsTruthy (.bool false) = false ∧ jsTruthy (.num 0 0) = false ∧
     jsTruthy .null = false ∧ jsTruthy (.str "") = false) ∧
    (∀ v u, jsTruthy v = false → jsTruthy u = true →
      normalizeRaw (.obj [("findings", v), ("FINDINGS", u)]) =
        .ok (jsTrim (jsToString u), "")) ∧
    (∀ v text, jsTruthy v = false →
      normalizeOut (.obj [("findings", v)]) text = .ok (text, "")) ∧
    (∀ v, jsTruthy v = false →
      normalizeRaw (.obj [("findings", .str "F"), ("impression", v)]) = .ok ("F", "")) :=
  ⟨⟨rfl, by decide, rfl, rfl⟩, normalizeRaw_falsy_upper, normalizeOut_falsy_only,
   normalizeRaw_impression_falsy⟩

/-- Witness for C10 at concrete falsy field values. -/
theorem C10_witness :
    normalizeRaw (.obj [("findings", .bool false), ("FINDINGS", .str " U ")]) = .ok ("U", "") ∧
    normalizeOut (.obj [("findings", .num 0 0)]) "orig" = .ok ("orig", "") ∧
    normalizeRaw (.obj [("findings", .str "F"), ("impression", .null)]) = .ok ("F", "") :=
  ⟨C10_falsy_fallthrough.2.1 (.bool false) (.str " U ") (by decide) (by decide),
   C10_falsy_fallthrough.2.2.1 (.num 0 0) "orig" (by decide),
   C10_falsy_fallthrough.2.2.2 .null (by decide)⟩

/-- The `${field || ""}` substitution equals `jsCoerceOpt`. -/
theorem jsCoerceOpt_eq (v : JVal) : jsToString (jsOr v (.str "")) = jsCoerceOpt v := by
  unfold jsCoerceOpt jsOr
  cases hv : jsTruthy v <;> simp [hv, jsToString_str]

/-- C2 counterexample: upstream content a single space is unparsable as
JSON and is not the empty string, so the claimed findings value is the
raw content trimmed, the empty string; the handler instead returns the
original input text "hi". -/
theorem C2_counterexample :
    isParseError (jsonParse " ") = true ∧
    (handler postTextHi envOK (fetchContent (.str " "))).1.statusCode = 200 ∧
    (handler postTextHi envOK (fetchContent (.str " "))).1.body =
      stringifyStrObj [("findings", "hi"), ("impression", "")] ∧
    "hi" ≠ jsTrim " " :=
  ⟨rfl, rfl, rfl, by decide⟩

/-- C2 (amended): when a POST with non-empty trimmed text gets a
successful upstream response whose extracted content string is not
parsable as JSON, the 200 response has findings equal to the raw content
trimmed when that is non-empty, and otherwise (in particular when the
content is the empty string or only whitespace) the original trimmed
input text; impression equals the empty string. -/
theorem C2_amended_unparsable_content (event : Event) (env : Env)
    (fetches : Nat → Except String UpstreamResp) (text : String) (call : FetchCall)
    (resp : UpstreamResp) (data : JVal) (c : String)
    (hm : event.httpMethod = "POST")
    (hpre : deepseekPre event env = .ok (.proceed text call))
    (hf : fetches 0 = .ok resp)
    (hok : resp.ok = true)
    (hj : resp.jsonBody = .ok data)
    (hc : contentValue data = .str c)
    (hperr : isParseError (jsonParse c) = true) :
    (handler event env fetches).1 =
      mkJsonResp 200 (stringifyStrObj
        [("findings", if jsTrim c = "" then text else jsTrim c), ("impression", "")]) := by
  obtain ⟨e, hjp⟩ : ∃ e, jsonParse c = .error e := by
    cases hjp : jsonParse c with
    | error e => exact ⟨e, rfl⟩
    | ok v => rw [hjp] at hperr; simp [isParseError] at hperr
  have htext := pre_proceed _ _ _ _ hpre
  have hpc : parsedContent data text =
      .obj [("findings", jsOr (.str c) (.str text)), ("impression", .str "")] := by
    unfold parsedContent
    rw [hc, jsToString_str, hjp]
  have hnorm : normalizeOut (parsedContent data text) text =
      .ok (if jsTrim c = "" then text else jsTrim c, "") := by
    rw [hpc]
    unfold normalizeOut
    rw [normalizeRaw_fallback]
    by_cases hcc : c = ""
    · subst hcc
      by_cases htt : text = ""
      · exact absurd htt htext.1
      · simp [jsOr, jsTruthy_str_empty, jsTruthy, htt, jsToString_str, jsTrim_empty,
          htext.2]
    · simp [jsOr, jsTruthy, hcc, jsToString_str]
  have hss : successStage data text =
      .ok (mkJsonResp 200 (stringifyStrObj
        [("findings", if jsTrim c = "" then text else jsTrim c), ("impression", "")])) := by
    unfold successStage
    rw [hnorm]
  have hpost : handlerPost event env fetches =
      (.ok (mkJsonResp 200 (stringifyStrObj
        [("findings", if jsTrim c = "" then text else jsTrim c), ("impression", "")])),
       [call]) := by
    unfold handlerPost
    simp [hpre, hf, hok, hj, hss]
  simp [handler, hm, hpost]

set_option maxRecDepth 8000 in
/-- Witness for the amended C2 at whitespace-only content. -/
theorem C2_amended_witness :
    (handler postTextHi envOK (fetchContent (.str " "))).1 =
      mkJsonResp 200 (stringifyStrObj
        [("findings", if jsTrim " " = "" then "hi" else jsTrim " "), ("impression", "")]) := by
  have h := C2_amended_unparsable_content postTextHi envOK (fetchContent (.str " ")) "hi"
    (preCallOf postTextHi envOK) ⟨true, .ok "", .ok (mkChoicesData (.str " "))⟩
    (mkChoicesData (.str " ")) " " rfl rfl rfl rfl rfl rfl rfl
  exact h

set_option maxRecDepth 100000 in
/-- C7 counterexample: with `template: 123` in the request body, the
assembled user prompt carries the line Template: 123, not the Template:
N/A line that replacing the non-string by the empty string would
produce. -/
theorem C7_counterexample :
    ((handler c7Event envOK (fetchUp "z")).2.map FetchCall.user) =
      [userPromptLines "123" "" "" "" "hi"] ∧
    userPromptLines "123" "" "" "" "hi" ≠ userPromptLines "" "" "" "" "hi" :=
  ⟨by decide, by decide⟩

/-- C7 (amended): each optional field (template and the patient
name/id/date fields) contributes its string coercion to the assembled
user prompt when truthy and the empty string when absent or falsy; a
truthy non-string value such as 123 is therefore string-coerced to
"123", not replaced by the empty string. -/
theorem C7_amended_optional_fields (event : Event) (env : Env) (text : String)
    (call : FetchCall) (b tv pv nv iv dv : JVal)
    (hb : parseEventBody event = .ok b)
    (htv : jsGetProp b "template" = .ok tv)
    (hpv : jsGetProp b "patient" = .ok pv)
    (hnv : jsGetProp (jsOr pv (.obj [])) "name" = .ok nv)
    (hiv : jsGetProp (jsOr pv (.obj [])) "id" = .ok iv)
    (hdv : jsGetProp (jsOr pv (.obj [])) "date" = .ok dv)
    (hpre : deepseekPre event env = .ok (.proceed text call)) :
    call.user = userPromptLines (jsCoerceOpt tv) (jsCoerceOpt nv) (jsCoerceOpt iv)
      (jsCoerceOpt dv) text ∧
    jsCoerceOpt .undefined = "" ∧ jsCoerceOpt (.bool false) = "" ∧
    jsCoerceOpt (.num 0 0) = "" ∧ jsCoerceOpt .null = "" ∧
    jsCoerceOpt (.num 123 0) = "123" := by
  obtain ⟨txv, htxv⟩ := jsGetProp_ok_any b "template" "text" tv htv
  unfold deepseekPre at hpre
  simp only [hb, htxv, hpv, htv] at hpre
  split at hpre
  · simp at hpre
  · split at hpre
    · simp at hpre
    · simp only [hnv, hiv, hdv] at hpre
      simp only [Except.ok.injEq, Pre.proceed.injEq] at hpre
      obtain ⟨htexteq, hcalleq⟩ := hpre
      refine ⟨?_, rfl, rfl, by decide, rfl, by decide⟩
      rw [← hcalleq, ← htexteq]
      simp only [jsCoerceOpt_eq]

set_option maxRecDepth 100000 in
/-- Witness for the amended C7 with template 123 and patient.name 5. -/
theorem C7_amended_witness :
    (preCallOf c7wEvent envOK).user =
      userPromptLines (jsCoerceOpt (.num 123 0)) (jsCoerceOpt (.num 5 0))
        (jsCoerceOpt .undefined) (jsCoerceOpt .undefined) "hi" := by
  have h := C7_amended_optional_fields c7wEvent envOK "hi" (preCallOf c7wEvent envOK)
    (JVal.obj [("text", .str "hi"), ("template", .num 123 0),
      ("patient", .obj [("name", .num 5 0)])])
    (.num 123 0) (.obj [("name", .num 5 0)]) (.num 5 0) .undefined .undefined
    rfl rfl rfl rfl rfl rfl rfl
  exact h.1
